import Mathlib

/-!
Shallow embedding of the galaxy-store-server repository (an Express +
Cloudflare-R2 + MongoDB APK store, present in several evolutionary
variants concatenated in `src/server.js` and `src/unnamed/part_000`).

Variants modelled here, named after their position in the sources:
* variant A — `src/server.js`, first segment: MongoDB catalog, JWT auth,
  sanitized storage keys, R2 deletes guarded by an inner try/catch.
* variant B — `src/server.js`, second segment: in-memory `apks` array,
  static-token auth, unsanitized keys, unguarded R2 deletes, and a PUT
  handler that stores a supplied title with " (NEW)" appended.
* variant D — `src/unnamed/part_000`, second segment: the most evolved
  MongoDB variant, with packageName/description validation, sanitized
  keys, a PUT handler building an `updateData` merge object, and R2
  deletes guarded by inner try/catch blocks.

The R2 object store is modelled by its visible effects: a set of stored
keys plus a log of every `r2.send` call, driven by an environment that
says which puts/deletes fail (an AWS-SDK call either succeeds or throws).
The MongoDB catalog is a list of records; `Apk.create` appends,
`findByIdAndUpdate` maps over the list, `findByIdAndDelete` erases.
File buffers and content types are payload that no handler ever reads
back, so uploads are identified by their keys alone.
-/

/-- JS truthiness of an optional string field of `req.body`:
`!x` holds for a missing field and for the empty string. -/
def falsy : Option String → Bool
  | none => true
  | some s => s.isEmpty

/-- JS `x || d` for an optional string against a string default. -/
def jsOr (x : Option String) (d : String) : String :=
  match x with
  | none => d
  | some s => if s.isEmpty then d else s

/-- JS `x || d` for an optional string against an optional default
(e.g. `description || existingApk.description`). -/
def jsOrO (x : Option String) (d : Option String) : Option String :=
  match x with
  | none => d
  | some s => if s.isEmpty then d else some s

/-- The character class `[a-zA-Z0-9.-]` of the key-sanitizing regex. -/
def allowedChar (c : Char) : Bool :=
  (65 ≤ c.toNat && c.toNat ≤ 90) || (97 ≤ c.toNat && c.toNat ≤ 122) ||
  (48 ≤ c.toNat && c.toNat ≤ 57) || c.toNat = 46 || c.toNat = 45

/-- `originalname.replace(/[^a-zA-Z0-9.-]/g, "_")`: every character
outside the class is replaced by an underscore (codepoint 95). -/
def sanitize (s : String) : String :=
  String.mk (s.data.map (fun c => if allowedChar c then c else Char.ofNat 95))

/-- Hex digit used by percent-encoding (uppercase, as in JS). -/
def hexDigitChar (n : Nat) : Char :=
  if n < 10 then Char.ofNat (48 + n) else Char.ofNat (55 + n)

/-- UTF-8 bytes of a character, for `encodeURIComponent`. -/
def utf8Bytes (c : Char) : List Nat :=
  let n := c.toNat
  if n < 128 then [n]
  else if n < 2048 then [192 + n / 64, 128 + n % 64]
  else if n < 65536 then [224 + n / 4096, 128 + (n / 64) % 64, 128 + n % 64]
  else [240 + n / 262144, 128 + (n / 4096) % 64, 128 + (n / 64) % 64, 128 + n % 64]

/-- Characters `encodeURIComponent` leaves unescaped:
alphanumerics and `- _ . ! ~ * ' ( )`. -/
def uriUnreserved (c : Char) : Bool :=
  (65 ≤ c.toNat && c.toNat ≤ 90) || (97 ≤ c.toNat && c.toNat ≤ 122) ||
  (48 ≤ c.toNat && c.toNat ≤ 57) ||
  c.toNat = 45 || c.toNat = 95 || c.toNat = 46 || c.toNat = 33 ||
  c.toNat = 126 || c.toNat = 42 || c.toNat = 39 || c.toNat = 40 || c.toNat = 41

/-- `%HH` escape of one byte. -/
def pctByte (b : Nat) : List Char :=
  [Char.ofNat 37, hexDigitChar (b / 16), hexDigitChar (b % 16)]

/-- JS `encodeURIComponent`. -/
def encodeURIComponent (s : String) : String :=
  String.mk ((s.data.map (fun c =>
    if uriUnreserved c then [c] else ((utf8Bytes c).map pctByte).flatten)).flatten)

/-- `${process.env.R2_PUBLIC_URL}/${encodeURIComponent(key)}`. -/
def publicUrlOf (base key : String) : String :=
  base ++ "/" ++ encodeURIComponent key

/-- An uploaded file as the handlers observe it. The buffer and mime
type are opaque payload forwarded to R2 and never read back, so only
`originalname` (which determines the storage key) is carried. -/
structure FileUpload where
  originalname : String
deriving DecidableEq, Repr

/-- An artifact record of the catalog. Fields absent from a variant's
schema (e.g. `description` in variants A/B) stay `none` there. Mongo's
`_id` and variant B's `Date.now()` id are both modelled as `id : Nat`;
timestamps are millisecond naturals. -/
structure ApkRecord where
  id : Nat
  title : String
  description : Option String
  version : Option String
  versionCode : Option Int
  packageName : Option String
  apkUrl : String
  iconUrl : Option String
  apkKey : String
  iconKey : Option String
  createdAt : Nat
deriving DecidableEq, Repr

/-- One `r2.send` call, as logged by the store model. -/
inductive StoreCall where
  | put (key : String)
  | delete (key : String)
deriving DecidableEq, Repr

/-- The R2 bucket: the keys currently holding an object, plus the log
of every call issued against the backend. -/
structure Store where
  blobs : List String
  calls : List StoreCall
deriving DecidableEq, Repr

/-- Failure environment for one request: which `PutObjectCommand`s and
`DeleteObjectCommand`s throw, and the configured public URL base. -/
structure R2Env where
  putFails : String → Bool
  deleteFails : String → Bool
  publicUrl : String

/-- `r2.send(new PutObjectCommand ...)`: logs the call; on success the
key now holds an object, on failure the SDK throws (`false`). -/
def r2put (env : R2Env) (st : Store) (key : String) : Bool × Store :=
  let st := { st with calls := st.calls ++ [StoreCall.put key] }
  if env.putFails key then (false, st)
  else (true, { st with blobs := key :: st.blobs })

/-- `r2.send(new DeleteObjectCommand ...)`: logs the call; on success
the key is removed (idempotently), on failure the SDK throws. -/
def r2delete (env : R2Env) (st : Store) (key : String) : Bool × Store :=
  let st := { st with calls := st.calls ++ [StoreCall.delete key] }
  if env.deleteFails key then (false, st)
  else (true, { st with blobs := st.blobs.filter (fun k => k ≠ key) })

/-- HTTP-level outcome of a handler. -/
inductive HRes where
  | created (r : ApkRecord)
  | ok (r : ApkRecord)
  | okMsg (msg : String)
  | badRequest (msg : String)
  | notFound (msg : String)
  | serverError (msg : String)
deriving DecidableEq, Repr

/-- Sanitized APK key: `apks/${Date.now()}-${name.replace(...)}`
(variants A and D). -/
def apkKeyS (now : Nat) (name : String) : String :=
  "apks/" ++ toString now ++ "-" ++ sanitize name

/-- Sanitized icon key (variants A and D). -/
def iconKeyS (now : Nat) (name : String) : String :=
  "icons/" ++ toString now ++ "-" ++ sanitize name

/-- Unsanitized APK key: `apks/${Date.now()}-${file.originalname}`
(variant B). -/
def apkKeyRaw (now : Nat) (name : String) : String :=
  "apks/" ++ toString now ++ "-" ++ name

/-- Unsanitized icon key (variant B). -/
def iconKeyRaw (now : Nat) (name : String) : String :=
  "icons/" ++ toString now ++ "-" ++ name

/-- The fields a `POST /apks` handler reads from the request. -/
structure PublishInput where
  title : Option String
  packageName : Option String
  description : Option String
  version : Option String
  apkFile : Option FileUpload
  iconFile : Option FileUpload
deriving Repr

/-- `POST /apks`, variant A (server.js first segment): requires only the
APK file; sanitized keys; APK put, optional icon put, then `Apk.create`
appends the record; any thrown error is caught and answered with 500.
`now` is `Date.now()`, `newId` the Mongo-assigned id.
Returns (response, catalog, store). -/
def publishA (env : R2Env) (now newId : Nat) (inp : PublishInput)
    (cat : List ApkRecord) (st : Store) : HRes × List ApkRecord × Store :=
  match inp.apkFile with
  | none => (HRes.badRequest "APK file is required", cat, st)
  | some f =>
    let akey := apkKeyS now f.originalname
    let (okA, st) := r2put env st akey
    if !okA then (HRes.serverError "Upload failed", cat, st)
    else
      let aurl := publicUrlOf env.publicUrl akey
      match inp.iconFile with
      | some g =>
        let ikey := iconKeyS now g.originalname
        let (okI, st) := r2put env st ikey
        if !okI then (HRes.serverError "Upload failed", cat, st)
        else
          let r : ApkRecord :=
            { id := newId, title := jsOr inp.title f.originalname,
              description := none, version := none, versionCode := none,
              packageName := none, apkUrl := aurl,
              iconUrl := some (publicUrlOf env.publicUrl ikey),
              apkKey := akey, iconKey := some ikey, createdAt := now }
          (HRes.created r, cat ++ [r], st)
      | none =>
        let r : ApkRecord :=
          { id := newId, title := jsOr inp.title f.originalname,
            description := none, version := none, versionCode := none,
            packageName := none, apkUrl := aurl, iconUrl := none,
            apkKey := akey, iconKey := none, createdAt := now }
        (HRes.created r, cat ++ [r], st)

/-- `POST /apks`, variant B (server.js second segment): in-memory
catalog, unsanitized keys (icon key precomputed before any upload),
record id is `Date.now()`, record pushed at the end of the array. -/
def publishB (env : R2Env) (now : Nat) (inp : PublishInput)
    (cat : List ApkRecord) (st : Store) : HRes × List ApkRecord × Store :=
  match inp.apkFile with
  | none => (HRes.badRequest "APK обязателен", cat, st)
  | some f =>
    let akey := apkKeyRaw now f.originalname
    let (okA, st) := r2put env st akey
    if !okA then (HRes.serverError "Ошибка загрузки в R2", cat, st)
    else
      match inp.iconFile with
      | some g =>
        let ikey := iconKeyRaw now g.originalname
        let (okI, st) := r2put env st ikey
        if !okI then (HRes.serverError "Ошибка загрузки в R2", cat, st)
        else
          let r : ApkRecord :=
            { id := now, title := jsOr inp.title f.originalname,
              description := none, version := none, versionCode := none,
              packageName := none, apkUrl := publicUrlOf env.publicUrl akey,
              iconUrl := some (publicUrlOf env.publicUrl ikey),
              apkKey := akey, iconKey := some ikey, createdAt := now }
          (HRes.ok r, cat ++ [r], st)
      | none =>
        let r : ApkRecord :=
          { id := now, title := jsOr inp.title f.originalname,
            description := none, version := none, versionCode := none,
            packageName := none, apkUrl := publicUrlOf env.publicUrl akey,
            iconUrl := none, apkKey := akey, iconKey := none, createdAt := now }
        (HRes.ok r, cat ++ [r], st)

/-- Mongoose validation of variant D's `Apk` schema (part_000 lines
237-263): `description`, `versionCode` and `packageName` are declared
`required: true` (for a string path, `required` also rejects the empty
string); every other field is optional. `Apk.create` runs this
validation and throws a ValidationError when it fails. -/
def apkSchemaDValid (r : ApkRecord) : Bool :=
  !(falsy r.description) && r.versionCode.isSome && !(falsy r.packageName)

/-- `Apk.create` of variant D: schema validation, then insert. The
POST handler's payload never contains `versionCode`, so on that
handler's documents the validation always fails and the create throws
— caught by the handler's catch, which answers 500. -/
def apkCreateD (r : ApkRecord) (cat : List ApkRecord) (st : Store) :
    HRes × List ApkRecord × Store :=
  if apkSchemaDValid r then (HRes.created r, cat ++ [r], st)
  else (HRes.serverError "Upload failed", cat, st)

/-- `POST /apks`, variant D (part_000 second segment): validates
`packageName`, `description` and the APK file before touching any
store; sanitized keys; APK put, optional icon put, then `Apk.create`.
The create payload omits the schema-required `versionCode`, so the
create step always fails validation and the handler answers 500 with
no record stored (the uploaded blobs stay behind, orphaned). -/
def publishD (env : R2Env) (now newId : Nat) (inp : PublishInput)
    (cat : List ApkRecord) (st : Store) : HRes × List ApkRecord × Store :=
  if falsy inp.packageName then (HRes.badRequest "packageName is required", cat, st)
  else if falsy inp.description then (HRes.badRequest "description is required", cat, st)
  else
    match inp.apkFile with
    | none => (HRes.badRequest "APK file is required", cat, st)
    | some f =>
      let akey := apkKeyS now f.originalname
      let (okA, st) := r2put env st akey
      if !okA then (HRes.serverError "Upload failed", cat, st)
      else
        let aurl := publicUrlOf env.publicUrl akey
        match inp.iconFile with
        | some g =>
          let ikey := iconKeyS now g.originalname
          let (okI, st) := r2put env st ikey
          if !okI then (HRes.serverError "Upload failed", cat, st)
          else
            let r : ApkRecord :=
              { id := newId, title := jsOr inp.title f.originalname,
                description := inp.description, version := jsOrO inp.version none,
                versionCode := none, packageName := inp.packageName,
                apkUrl := aurl, iconUrl := some (publicUrlOf env.publicUrl ikey),
                apkKey := akey, iconKey := some ikey, createdAt := now }
            apkCreateD r cat st
        | none =>
          let r : ApkRecord :=
            { id := newId, title := jsOr inp.title f.originalname,
              description := inp.description, version := jsOrO inp.version none,
              versionCode := none, packageName := inp.packageName,
              apkUrl := aurl, iconUrl := none,
              apkKey := akey, iconKey := none, createdAt := now }
          apkCreateD r cat st

/-- The `$set`-style object a `PUT /apks/:id` (variant D) builds:
metadata fields are always present (falling back to the existing
values); key/URL fields are added only when a new file was uploaded. -/
structure UpdateData where
  title : String
  packageName : Option String
  description : Option String
  version : Option String
  versionCode : Option Int
  apkKey : Option String
  apkUrl : Option String
  iconKey : Option String
  iconUrl : Option String
deriving DecidableEq, Repr

/-- `findByIdAndUpdate(id, updateData)`: set every field present in
`updateData`, keep the rest of the document. -/
def applyUpdate (ud : UpdateData) (r : ApkRecord) : ApkRecord :=
  { r with
    title := ud.title, packageName := ud.packageName,
    description := ud.description, version := ud.version,
    versionCode := ud.versionCode,
    apkKey := ud.apkKey.getD r.apkKey,
    apkUrl := ud.apkUrl.getD r.apkUrl,
    iconKey := match ud.iconKey with | some k => some k | none => r.iconKey,
    iconUrl := match ud.iconUrl with | some u => some u | none => r.iconUrl }

/-- The fields a `PUT /apks/:id` handler reads from the request.
`versionCode` models `parseInt(versionCode)` when the field is present
(`versionCode !== undefined`). Variant B reads only `title` and the two
files and ignores the rest. -/
structure UpdateInput where
  title : Option String
  packageName : Option String
  description : Option String
  version : Option String
  versionCode : Option Int
  apkFile : Option FileUpload
  iconFile : Option FileUpload
deriving Repr

/-- Final step of variant D's PUT: the single `findByIdAndUpdate` call,
returning the updated document (`{ new: true }`). -/
def putDFinish (rid : Nat) (ex : ApkRecord) (ud : UpdateData)
    (cat : List ApkRecord) (st : Store) : HRes × List ApkRecord × Store :=
  (HRes.ok (applyUpdate ud ex),
   cat.map (fun r => if r.id = rid then applyUpdate ud r else r), st)

/-- Icon step of variant D's PUT: if a new icon was uploaded, delete the
old icon inside an inner try/catch (failure logged and tolerated), then
upload the new icon (failure aborts with 500), then stage key and URL. -/
def putDIcon (env : R2Env) (now rid : Nat) (iconFile : Option FileUpload)
    (ex : ApkRecord) (ud : UpdateData) (cat : List ApkRecord) (st : Store) :
    HRes × List ApkRecord × Store :=
  match iconFile with
  | none => putDFinish rid ex ud cat st
  | some g =>
    let st := match ex.iconKey with
      | some ik => (r2delete env st ik).2
      | none => st
    let nk := iconKeyS now g.originalname
    let (okI, st) := r2put env st nk
    if !okI then (HRes.serverError "Update failed", cat, st)
    else putDFinish rid ex
      { ud with iconKey := some nk,
                iconUrl := some (publicUrlOf env.publicUrl nk) } cat st

/-- `PUT /apks/:id`, variant D (part_000 second segment): fetch the
record (404 if absent); build `updateData` by `field || existing` merge;
if a new APK was uploaded, delete the old object inside an inner
try/catch (tolerated) and upload the new one (failure aborts with 500);
likewise for the icon; finish with one `findByIdAndUpdate`. -/
def putD (env : R2Env) (now rid : Nat) (inp : UpdateInput)
    (cat : List ApkRecord) (st : Store) : HRes × List ApkRecord × Store :=
  match cat.find? (fun r => r.id = rid) with
  | none => (HRes.notFound "APK not found", cat, st)
  | some ex =>
    let ud : UpdateData :=
      { title := jsOr inp.title ex.title,
        packageName := jsOrO inp.packageName ex.packageName,
        description := jsOrO inp.description ex.description,
        version := jsOrO inp.version ex.version,
        versionCode := match inp.versionCode with
          | some v => some v
          | none => ex.versionCode,
        apkKey := none, apkUrl := none, iconKey := none, iconUrl := none }
    match inp.apkFile with
    | none => putDIcon env now rid inp.iconFile ex ud cat st
    | some f =>
      let st := (r2delete env st ex.apkKey).2
      let nk := apkKeyS now f.originalname
      let (okA, st) := r2put env st nk
      if !okA then (HRes.serverError "Update failed", cat, st)
      else putDIcon env now rid inp.iconFile ex
        { ud with apkKey := some nk,
                  apkUrl := some (publicUrlOf env.publicUrl nk) } cat st

/-- APK step of variant B's PUT: upload the new object, then delete the
old one with no inner try/catch — a delete failure throws to the outer
catch (500) before the record fields are assigned — then mutate the
record in place (the array holds the same object reference, so the
mutation is immediately visible in the catalog). -/
def putBStepApk (env : R2Env) (now rid : Nat) (apkFile : Option FileUpload)
    (a : ApkRecord) (cat : List ApkRecord) (st : Store) :
    Except (HRes × List ApkRecord × Store) (ApkRecord × List ApkRecord × Store) :=
  match apkFile with
  | none => Except.ok (a, cat, st)
  | some f =>
    let nk := apkKeyRaw now f.originalname
    let (okP, st) := r2put env st nk
    if !okP then Except.error (HRes.serverError "Ошибка обновления APK", cat, st)
    else
      let (okD, st) := r2delete env st a.apkKey
      if !okD then Except.error (HRes.serverError "Ошибка обновления APK", cat, st)
      else
        let a := { a with apkKey := nk, apkUrl := publicUrlOf env.publicUrl nk }
        Except.ok (a, cat.map (fun r => if r.id = rid then a else r), st)

/-- Icon step of variant B's PUT: upload the new icon, delete the old
one (if any) unguarded, then mutate the record in place. -/
def putBStepIcon (env : R2Env) (now rid : Nat) (iconFile : Option FileUpload)
    (a : ApkRecord) (cat : List ApkRecord) (st : Store) :
    Except (HRes × List ApkRecord × Store) (ApkRecord × List ApkRecord × Store) :=
  match iconFile with
  | none => Except.ok (a, cat, st)
  | some g =>
    let nk := iconKeyRaw now g.originalname
    let (okP, st) := r2put env st nk
    if !okP then Except.error (HRes.serverError "Ошибка обновления APK", cat, st)
    else
      let commit := fun (st : Store) =>
        let a := { a with iconKey := some nk,
                          iconUrl := some (publicUrlOf env.publicUrl nk) }
        Except.ok (a, cat.map (fun r => if r.id = rid then a else r), st)
      match a.iconKey with
      | some ik =>
        let (okD, st) := r2delete env st ik
        if !okD then Except.error (HRes.serverError "Ошибка обновления APK", cat, st)
        else commit st
      | none => commit st

/-- `PUT /apks/:id`, variant B (server.js second segment): find the
record by numeric id (404 if absent); optionally rotate the APK object,
then the icon object (each step committing its in-place mutations);
finally, a truthy `title` is stored as `` `${title} (NEW)` ``. -/
def putB (env : R2Env) (now rid : Nat) (inp : UpdateInput)
    (cat : List ApkRecord) (st : Store) : HRes × List ApkRecord × Store :=
  match cat.find? (fun r => r.id = rid) with
  | none => (HRes.notFound "APK не найден", cat, st)
  | some a0 =>
    match putBStepApk env now rid inp.apkFile a0 cat st with
    | Except.error e => e
    | Except.ok (a1, cat1, st1) =>
      match putBStepIcon env now rid inp.iconFile a1 cat1 st1 with
      | Except.error e => e
      | Except.ok (a2, cat2, st2) =>
        let a3 := match inp.title with
          | some t => if t.isEmpty then a2 else { a2 with title := t ++ " (NEW)" }
          | none => a2
        (HRes.ok a3, cat2.map (fun r => if r.id = rid then a3 else r), st2)

/-- `DELETE /apks/:id`, variants A and D: fetch the record (404 if
absent); delete the APK and then the icon object inside one inner
try/catch, so any R2 delete failure is logged and tolerated (a failing
APK delete jumps to the catch, skipping the icon delete); then
`findByIdAndDelete` removes the catalog record and the handler answers
success. -/
def deleteD (env : R2Env) (rid : Nat) (cat : List ApkRecord) (st : Store) :
    HRes × List ApkRecord × Store :=
  match cat.find? (fun r => r.id = rid) with
  | none => (HRes.notFound "APK not found", cat, st)
  | some a =>
    let (okA, st) := r2delete env st a.apkKey
    let st := if okA then
        match a.iconKey with
        | some ik => (r2delete env st ik).2
        | none => st
      else st
    (HRes.okMsg "APK deleted successfully",
     cat.eraseP (fun r => r.id == rid), st)

/-- `DELETE /apks/:id`, variant B (server.js second segment): fetch the
record (404 if absent); delete the APK object and then the icon object
directly inside the outer try — a delete failure is answered with 500
and the `apks.splice` removing the catalog entry is never reached. -/
def deleteB (env : R2Env) (rid : Nat) (cat : List ApkRecord) (st : Store) :
    HRes × List ApkRecord × Store :=
  match cat.find? (fun r => r.id = rid) with
  | none => (HRes.notFound "APK не найден", cat, st)
  | some a =>
    let (okA, st) := r2delete env st a.apkKey
    if !okA then (HRes.serverError "Ошибка удаления файлов из R2", cat, st)
    else
      match a.iconKey with
      | some ik =>
        let (okI, st) := r2delete env st ik
        if !okI then (HRes.serverError "Ошибка удаления файлов из R2", cat, st)
        else (HRes.okMsg "APK и иконка удалены",
              cat.eraseP (fun r => r.id == rid), st)
      | none => (HRes.okMsg "APK и иконка удалены",
                 cat.eraseP (fun r => r.id == rid), st)

/-- Insert a record into a list that is sorted by `createdAt`
descending, keeping it sorted. -/
def insertByCreatedAtDesc (r : ApkRecord) : List ApkRecord → List ApkRecord
  | [] => [r]
  | x :: xs =>
    if x.createdAt ≤ r.createdAt then r :: x :: xs
    else x :: insertByCreatedAtDesc r xs

/-- Sort by `createdAt` descending (model of Mongo's
`.sort({ createdAt: -1 })`). -/
def sortByCreatedAtDesc : List ApkRecord → List ApkRecord
  | [] => []
  | x :: xs => insertByCreatedAtDesc x (sortByCreatedAtDesc xs)

/-- `GET /apks`, variants A and the first part_000 segment:
`Apk.find().sort({ createdAt: -1 })` over the whole catalog. -/
def listApks (cat : List ApkRecord) : List ApkRecord :=
  sortByCreatedAtDesc cat

/-- The space character, the separator of `authHeader.split(" ")`. -/
def spaceChar : Char := Char.ofNat 32

/-- JS `string.split(sep)` for a one-character separator, over the
string's characters. -/
def splitChar (sep : Char) : List Char → List (List Char)
  | [] => [[]]
  | c :: cs =>
    let r := splitChar sep cs
    if c = sep then [] :: r
    else
      match r with
      | [] => [[c]]
      | h :: t => (c :: h) :: t

/-- `authHeader.split(" ")[1]`: the second space-delimited token of the
authorization header, `none` when the header has no space (JS
`undefined`). -/
def authTokenOf (h : String) : Option (List Char) :=
  (splitChar spaceChar h.data).get? 1

/-- Outcome of the auth middleware. -/
inductive AuthResult where
  | noToken
  | invalidToken
  | authorized (adminId : String)
deriving DecidableEq, Repr

/-- `authMiddleware` of the JWT variants (A, and both part_000 server
segments): missing header → 401 "No token"; otherwise
`jwt.verify(authHeader.split(" ")[1], secret)` — the scheme prefix
`split(" ")[0]` is never examined. `verify` abstracts
`jwt.verify(·, JWT_SECRET)`, returning the token's `adminId` when the
signature and expiry check out; `jwt.verify(undefined, secret)` throws,
which the catch turns into 401 "Invalid token". -/
def authMiddlewareJwt (verify : List Char → Option String) :
    Option String → AuthResult
  | none => AuthResult.noToken
  | some h =>
    match authTokenOf h with
    | none => AuthResult.invalidToken
    | some t =>
      match verify t with
      | some i => AuthResult.authorized i
      | none => AuthResult.invalidToken

/-- A stored admin credential: login plus bcrypt password hash. -/
structure AdminRecord where
  id : Nat
  login : String
  password : String
deriving DecidableEq, Repr

/-- An admin as serialized by `Admin.find({}, { password: 0 })`: the
projection excludes the password field and keeps the rest. -/
structure AdminPublic where
  id : Nat
  login : String
deriving DecidableEq, Repr

/-- The `{ password: 0 }` projection applied to one credential. -/
def adminPublicOf (a : AdminRecord) : AdminPublic :=
  { id := a.id, login := a.login }

/-- Body of the `GET /debug/admins` response. -/
structure DebugAdminsResponse where
  count : Nat
  admins : List AdminPublic
  dbStatus : String
deriving DecidableEq, Repr

/-- The `GET /debug/admins` handler body: every admin record with the
password projected away, plus a count and the connection status. -/
def handleDebugAdmins (admins : List AdminRecord) (dbConnected : Bool) :
    DebugAdminsResponse :=
  { count := admins.length,
    admins := admins.map adminPublicOf,
    dbStatus := if dbConnected then "connected" else "disconnected" }

/-- The `GET /debug/admins` route as registered (variants A and D):
`app.get("/debug/admins", handler)` with no `authMiddleware` in the
chain, so the authorization header — present, absent, or garbage — is
never consulted. -/
def debugAdminsRoute (_authHeader : Option String)
    (admins : List AdminRecord) (dbConnected : Bool) : DebugAdminsResponse :=
  handleDebugAdmins admins dbConnected

/-- Empty bucket, empty call log. -/
def st0 : Store := { blobs := [], calls := [] }

/-- Environment where every store call succeeds. -/
def env0 : R2Env :=
  { putFails := fun _ => false, deleteFails := fun _ => false,
    publicUrl := "https://cdn.example" }

/-- Environment where every `PutObjectCommand` fails. -/
def envPutFailAll : R2Env := { env0 with putFails := fun _ => true }

/-- Environment where exactly the icon key `icons/5-i.png` fails to put. -/
def envIconPutFail : R2Env := { env0 with putFails := fun k => k == "icons/5-i.png" }

/-- Environment where every `DeleteObjectCommand` fails. -/
def envDeleteFailAll : R2Env := { env0 with deleteFails := fun _ => true }

/-- The spec scenario's upload: client filename with a space. -/
def fileApp : FileUpload := { originalname := "app v1.apk" }

/-- A concrete icon upload. -/
def fileIcon : FileUpload := { originalname := "i.png" }

/-- A fully valid publish request without an icon. -/
def inpPub : PublishInput :=
  { title := some "T", packageName := some "com.example.app",
    description := some "desc", version := none,
    apkFile := some fileApp, iconFile := none }

/-- A fully valid publish request with an icon. -/
def inpPubIcon : PublishInput := { inpPub with iconFile := some fileIcon }

/-- A publish request with no description. -/
def inpPubNoDesc : PublishInput := { inpPub with description := none }

/-- A catalog record already published. -/
def rec0 : ApkRecord :=
  { id := 7, title := "Old", description := some "old desc",
    version := some "1.0", versionCode := some 3,
    packageName := some "com.example.app", apkUrl := "https://cdn.example/k0",
    iconUrl := some "https://cdn.example/ik0", apkKey := "k0",
    iconKey := some "ik0", createdAt := 10 }

/-- A metadata-only update patch carrying the title "New". -/
def updTitleNew : UpdateInput :=
  { title := some "New", packageName := none, description := none,
    version := none, versionCode := none, apkFile := none, iconFile := none }

/-- C1. For every Publish call in which the blob write to BlobStore
fails, the operation aborts with the 500 storage-fault response and no
catalog record is created: the catalog's list of records is exactly
what it was before the call, and the bucket contents are unchanged.
Stated for all three modelled publish handlers (variants A, B, D). -/
theorem claim1_blob_write_fail_no_record :
    (∀ (env : R2Env) (now newId : Nat) (inp : PublishInput)
        (cat : List ApkRecord) (st : Store) (f : FileUpload),
      inp.apkFile = some f →
      env.putFails (apkKeyS now f.originalname) = true →
      (publishA env now newId inp cat st).1 = HRes.serverError "Upload failed" ∧
      (publishA env now newId inp cat st).2.1 = cat ∧
      (publishA env now newId inp cat st).2.2.blobs = st.blobs) ∧
    (∀ (env : R2Env) (now : Nat) (inp : PublishInput)
        (cat : List ApkRecord) (st : Store) (f : FileUpload),
      inp.apkFile = some f →
      env.putFails (apkKeyRaw now f.originalname) = true →
      (publishB env now inp cat st).1 = HRes.serverError "Ошибка загрузки в R2" ∧
      (publishB env now inp cat st).2.1 = cat ∧
      (publishB env now inp cat st).2.2.blobs = st.blobs) ∧
    (∀ (env : R2Env) (now newId : Nat) (inp : PublishInput)
        (cat : List ApkRecord) (st : Store) (f : FileUpload),
      falsy inp.packageName = false →
      falsy inp.description = false →
      inp.apkFile = some f →
      env.putFails (apkKeyS now f.originalname) = true →
      (publishD env now newId inp cat st).1 = HRes.serverError "Upload failed" ∧
      (publishD env now newId inp cat st).2.1 = cat ∧
      (publishD env now newId inp cat st).2.2.blobs = st.blobs) := by
  refine ⟨?_, ?_, ?_⟩
  · intro env now newId inp cat st f hf hp
    simp [publishA, hf, r2put, hp]
  · intro env now inp cat st f hf hp
    simp [publishB, hf, r2put, hp]
  · intro env now newId inp cat st f hpkg hdesc hf hp
    simp [publishD, hpkg, hdesc, hf, r2put, hp]

/-- Witness for C1: concrete aborted publishes in all three variants. -/
theorem claim1_blob_write_fail_no_record_witness :
    ((publishA envPutFailAll 5 1 inpPub [rec0] st0).1 = HRes.serverError "Upload failed" ∧
     (publishA envPutFailAll 5 1 inpPub [rec0] st0).2.1 = [rec0] ∧
     (publishA envPutFailAll 5 1 inpPub [rec0] st0).2.2.blobs = ([] : List String)) ∧
    ((publishB envPutFailAll 5 inpPub [rec0] st0).1 = HRes.serverError "Ошибка загрузки в R2" ∧
     (publishB envPutFailAll 5 inpPub [rec0] st0).2.1 = [rec0] ∧
     (publishB envPutFailAll 5 inpPub [rec0] st0).2.2.blobs = ([] : List String)) ∧
    ((publishD envPutFailAll 5 1 inpPub [rec0] st0).1 = HRes.serverError "Upload failed" ∧
     (publishD envPutFailAll 5 1 inpPub [rec0] st0).2.1 = [rec0] ∧
     (publishD envPutFailAll 5 1 inpPub [rec0] st0).2.2.blobs = ([] : List String)) :=
  ⟨claim1_blob_write_fail_no_record.1 envPutFailAll 5 1 inpPub [rec0] st0 fileApp rfl rfl,
   claim1_blob_write_fail_no_record.2.1 envPutFailAll 5 inpPub [rec0] st0 fileApp rfl rfl,
   claim1_blob_write_fail_no_record.2.2 envPutFailAll 5 1 inpPub [rec0] st0 fileApp
     rfl rfl rfl rfl⟩

/-- C5. For every Publish call on the evolved variant missing a
required input (`packageName`, `description`, or the APK file), the
call fails with the 400 validation response naming that input, and the
catalog and the blob store — including the call log, so not a single
`r2.send` was issued — are exactly as before. -/
theorem claim5_validation_before_side_effects :
    (∀ (env : R2Env) (now newId : Nat) (inp : PublishInput)
        (cat : List ApkRecord) (st : Store),
      falsy inp.packageName = true →
      publishD env now newId inp cat st =
        (HRes.badRequest "packageName is required", cat, st)) ∧
    (∀ (env : R2Env) (now newId : Nat) (inp : PublishInput)
        (cat : List ApkRecord) (st : Store),
      falsy inp.packageName = false → falsy inp.description = true →
      publishD env now newId inp cat st =
        (HRes.badRequest "description is required", cat, st)) ∧
    (∀ (env : R2Env) (now newId : Nat) (inp : PublishInput)
        (cat : List ApkRecord) (st : Store),
      falsy inp.packageName = false → falsy inp.description = false →
      inp.apkFile = none →
      publishD env now newId inp cat st =
        (HRes.badRequest "APK file is required", cat, st)) := by
  refine ⟨?_, ?_, ?_⟩
  · intro env now newId inp cat st h
    simp [publishD, h]
  · intro env now newId inp cat st h1 h2
    simp [publishD, h1, h2]
  · intro env now newId inp cat st h1 h2 h3
    simp [publishD, h1, h2, h3]

/-- Witness for C5: a publish without a description is refused with 400
and both stores untouched. -/
theorem claim5_validation_before_side_effects_witness :
    publishD env0 5 1 inpPubNoDesc [rec0] st0 =
      (HRes.badRequest "description is required", [rec0], st0) :=
  claim5_validation_before_side_effects.2.1 env0 5 1 inpPubNoDesc [rec0] st0 rfl rfl

/-- C8. For every Remove call on an id absent from the catalog (in both
the evolved Mongo variant and the in-memory variant), the result is the
404 response, and the catalog and blob store — including the call log,
so no `r2.send` was issued — are returned unchanged. -/
theorem claim8_remove_missing_id_no_store_calls :
    ∀ (env : R2Env) (rid : Nat) (cat : List ApkRecord) (st : Store),
      cat.find? (fun r => r.id = rid) = none →
      deleteD env rid cat st = (HRes.notFound "APK not found", cat, st) ∧
      deleteB env rid cat st = (HRes.notFound "APK не найден", cat, st) := by
  intro env rid cat st h
  constructor
  · simp [deleteD, h]
  · simp [deleteB, h]

/-- Witness for C8: removing id 99 from a catalog holding only id 7. -/
theorem claim8_remove_missing_id_no_store_calls_witness :
    deleteD env0 99 [rec0] st0 = (HRes.notFound "APK not found", [rec0], st0) ∧
    deleteB env0 99 [rec0] st0 = (HRes.notFound "APK не найден", [rec0], st0) :=
  claim8_remove_missing_id_no_store_calls env0 99 [rec0] st0 (by decide)

/-- C2 counterexample. A concrete publish with an icon whose icon write
fails: the APK put at key `apks/5-app_v1.apk` succeeds, the icon put at
key `icons/5-i.png` throws — and the handler answers 500 and creates no
catalog record at all, instead of completing with null icon fields as
the claim states. -/
theorem claim2_icon_fail_counterexample :
    (publishD envIconPutFail 5 1 inpPubIcon [] st0).1 = HRes.serverError "Upload failed" ∧
    (publishD envIconPutFail 5 1 inpPubIcon [] st0).2.1 = ([] : List ApkRecord) ∧
    (publishD envIconPutFail 5 1 inpPubIcon [] st0).2.2.blobs = ["apks/5-app_v1.apk"] := by
  decide

/-- C2 amended. In both Mongo variants the icon upload sits inside the
same try/catch as the rest of the publish: when the icon write fails,
the whole publish aborts with the 500 storage-fault response and no
catalog record is created; the already-stored primary blob is not
rolled back and remains in the bucket, orphaned. -/
theorem claim2_icon_fail_aborts_publish :
    (∀ (env : R2Env) (now newId : Nat) (inp : PublishInput)
        (cat : List ApkRecord) (st : Store) (f g : FileUpload),
      inp.apkFile = some f → inp.iconFile = some g →
      env.putFails (apkKeyS now f.originalname) = false →
      env.putFails (iconKeyS now g.originalname) = true →
      (publishA env now newId inp cat st).1 = HRes.serverError "Upload failed" ∧
      (publishA env now newId inp cat st).2.1 = cat ∧
      (publishA env now newId inp cat st).2.2.blobs =
        apkKeyS now f.originalname :: st.blobs) ∧
    (∀ (env : R2Env) (now newId : Nat) (inp : PublishInput)
        (cat : List ApkRecord) (st : Store) (f g : FileUpload),
      falsy inp.packageName = false → falsy inp.description = false →
      inp.apkFile = some f → inp.iconFile = some g →
      env.putFails (apkKeyS now f.originalname) = false →
      env.putFails (iconKeyS now g.originalname) = true →
      (publishD env now newId inp cat st).1 = HRes.serverError "Upload failed" ∧
      (publishD env now newId inp cat st).2.1 = cat ∧
      (publishD env now newId inp cat st).2.2.blobs =
        apkKeyS now f.originalname :: st.blobs) := by
  constructor
  · intro env now newId inp cat st f g hf hg hpa hpi
    simp [publishA, hf, hg, r2put, hpa, hpi]
  · intro env now newId inp cat st f g hpkg hdesc hf hg hpa hpi
    simp [publishD, hpkg, hdesc, hf, hg, r2put, hpa, hpi]

/-- Witness for the amended C2: the same concrete failing-icon publish,
run through both variants. -/
theorem claim2_icon_fail_aborts_publish_witness :
    ((publishA envIconPutFail 5 1 inpPubIcon [] st0).1 = HRes.serverError "Upload failed" ∧
     (publishA envIconPutFail 5 1 inpPubIcon [] st0).2.1 = ([] : List ApkRecord) ∧
     (publishA envIconPutFail 5 1 inpPubIcon [] st0).2.2.blobs =
       apkKeyS 5 fileApp.originalname :: st0.blobs) ∧
    ((publishD envIconPutFail 5 1 inpPubIcon [] st0).1 = HRes.serverError "Upload failed" ∧
     (publishD envIconPutFail 5 1 inpPubIcon [] st0).2.1 = ([] : List ApkRecord) ∧
     (publishD envIconPutFail 5 1 inpPubIcon [] st0).2.2.blobs =
       apkKeyS 5 fileApp.originalname :: st0.blobs) :=
  ⟨claim2_icon_fail_aborts_publish.1 envIconPutFail 5 1 inpPubIcon [] st0
     fileApp fileIcon rfl rfl (by decide) (by decide),
   claim2_icon_fail_aborts_publish.2 envIconPutFail 5 1 inpPubIcon [] st0
     fileApp fileIcon rfl rfl rfl rfl (by decide) (by decide)⟩

/-- C6 counterexample. The earliest variant's key generation
(`apks/${Date.now()}-${apkFile.originalname}`) performs no
sanitization: publishing `app v1.apk` at timestamp 100 stores the key
`apks/100-app v1.apk`, which still contains the space and is not the
sanitized key `apks/100-app_v1.apk` the claim requires of every
Publish call. -/
theorem claim6_unsanitized_key_counterexample :
    ((publishB env0 100 inpPub [] st0).2.1.map ApkRecord.apkKey =
      ["apks/100-app v1.apk"]) ∧
    ¬ ((publishB env0 100 inpPub [] st0).2.1.map ApkRecord.apkKey =
      ["apks/100-app_v1.apk"]) := by
  decide

/-- C6 amended. In the sanitizing variants the generated blob key is
the namespace, the millisecond timestamp, and the client filename with
every character outside `[A-Za-z0-9.-]` replaced by `_`. In the first
server.js variant a publish of `app v1.apk` with no icon yields a
record with key `apks/<ts>-app_v1.apk` and null icon fields. The
evolved part_000 variant writes the blob under the same sanitized key
but then always answers 500 and creates no record, because its schema
requires `versionCode` and the create payload omits it. The earliest
in-memory variant uses the client filename verbatim. -/
theorem claim6_sanitized_key_shape :
    (∀ (env : R2Env) (now newId : Nat) (inp : PublishInput)
        (cat : List ApkRecord) (st : Store) (f : FileUpload),
      inp.apkFile = some f → inp.iconFile = none →
      env.putFails (apkKeyS now f.originalname) = false →
      ∃ r, (publishA env now newId inp cat st).1 = HRes.created r ∧
        r.apkKey = "apks/" ++ toString now ++ "-" ++ sanitize f.originalname ∧
        r.iconKey = none ∧ r.iconUrl = none ∧
        (publishA env now newId inp cat st).2.1 = cat ++ [r]) ∧
    (∀ (env : R2Env) (now newId : Nat) (inp : PublishInput)
        (cat : List ApkRecord) (st : Store) (f : FileUpload),
      falsy inp.packageName = false → falsy inp.description = false →
      inp.apkFile = some f → inp.iconFile = none →
      env.putFails (apkKeyS now f.originalname) = false →
      (publishD env now newId inp cat st).1 = HRes.serverError "Upload failed" ∧
      (publishD env now newId inp cat st).2.1 = cat ∧
      (publishD env now newId inp cat st).2.2.blobs =
        ("apks/" ++ toString now ++ "-" ++ sanitize f.originalname) :: st.blobs ∧
      (publishD env now newId inp cat st).2.2.calls =
        st.calls ++
          [StoreCall.put ("apks/" ++ toString now ++ "-" ++ sanitize f.originalname)]) ∧
    sanitize "app v1.apk" = "app_v1.apk" ∧
    apkKeyS 100 "app v1.apk" = "apks/100-app_v1.apk" := by
  refine ⟨?_, ?_, by decide, by decide⟩
  · intro env now newId inp cat st f hf hi hp
    refine ⟨{ id := newId, title := jsOr inp.title f.originalname,
              description := none, version := none, versionCode := none,
              packageName := none,
              apkUrl := publicUrlOf env.publicUrl (apkKeyS now f.originalname),
              iconUrl := none, apkKey := apkKeyS now f.originalname,
              iconKey := none, createdAt := now }, ?_, rfl, rfl, rfl, ?_⟩ <;>
      simp [publishA, hf, hi, r2put, hp]
  · intro env now newId inp cat st f hpkg hdesc hf hi hp
    simp only [apkKeyS] at hp
    refine ⟨?_, ?_, ?_, ?_⟩ <;>
      simp [publishD, hpkg, hdesc, hf, hi, r2put, hp, apkCreateD,
        apkSchemaDValid, apkKeyS]

/-- Witness for the amended C6: the spec scenario run through variant A
at timestamp 100 — the stored key is `apks/100-app_v1.apk` and the icon
fields are null — and through variant D, where the same blob lands
under the same sanitized key but the create fails and no record is
stored. -/
theorem claim6_sanitized_key_shape_witness :
    (∃ r, (publishA env0 100 1 inpPub [] st0).1 = HRes.created r ∧
      r.apkKey = "apks/" ++ toString 100 ++ "-" ++ sanitize fileApp.originalname ∧
      r.iconKey = none ∧ r.iconUrl = none ∧
      (publishA env0 100 1 inpPub [] st0).2.1 = [] ++ [r]) ∧
    ((publishD env0 100 1 inpPub [] st0).1 = HRes.serverError "Upload failed" ∧
     (publishD env0 100 1 inpPub [] st0).2.1 = ([] : List ApkRecord) ∧
     (publishD env0 100 1 inpPub [] st0).2.2.blobs =
       ("apks/" ++ toString 100 ++ "-" ++ sanitize fileApp.originalname) :: st0.blobs ∧
     (publishD env0 100 1 inpPub [] st0).2.2.calls =
       st0.calls ++
         [StoreCall.put ("apks/" ++ toString 100 ++ "-" ++ sanitize fileApp.originalname)]) :=
  ⟨claim6_sanitized_key_shape.1 env0 100 1 inpPub [] st0 fileApp rfl rfl (by decide),
   claim6_sanitized_key_shape.2.1 env0 100 1 inpPub [] st0 fileApp
     rfl rfl rfl rfl (by decide)⟩

/-- C3 counterexample. In the in-memory variant's PUT handler a truthy
title is stored as `` `${title} (NEW)` ``: Replace(7, {title:"New"})
with no new blob or icon leaves the record titled "New (NEW)", not
"New" as the claim requires. -/
theorem claim3_title_suffix_counterexample :
    ((putB env0 20 7 updTitleNew [rec0] st0).2.1.map ApkRecord.title =
      ["New (NEW)"]) ∧
    ¬ ((putB env0 20 7 updTitleNew [rec0] st0).2.1.map ApkRecord.title =
      ["New"]) := by
  decide

/-- C3 amended. A Replace that supplies only a metadata patch touches
no store and leaves every non-supplied field — in particular `apkKey`,
`apkUrl`, `iconKey`, `iconUrl` — unchanged, in both PUT variants. In
the evolved Mongo variant each supplied non-empty field is stored with
exactly the supplied value; in the in-memory variant a supplied title
is stored with " (NEW)" appended. -/
theorem claim3_metadata_patch_is_merge :
    (∀ (env : R2Env) (now rid : Nat) (inp : UpdateInput)
        (cat : List ApkRecord) (st : Store) (ex : ApkRecord),
      cat.find? (fun r => r.id = rid) = some ex →
      (∀ r ∈ cat, r.id = rid → r = ex) →
      inp.apkFile = none → inp.iconFile = none →
      ∃ u, putD env now rid inp cat st =
          (HRes.ok u, cat.map (fun r => if r.id = rid then u else r), st) ∧
        u.apkKey = ex.apkKey ∧ u.apkUrl = ex.apkUrl ∧
        u.iconKey = ex.iconKey ∧ u.iconUrl = ex.iconUrl ∧
        u.id = ex.id ∧ u.createdAt = ex.createdAt ∧
        u.title = jsOr inp.title ex.title ∧
        u.packageName = jsOrO inp.packageName ex.packageName ∧
        u.description = jsOrO inp.description ex.description ∧
        u.version = jsOrO inp.version ex.version ∧
        (∀ t, inp.title = some t → t.isEmpty = false → u.title = t) ∧
        (inp.versionCode = none → u.versionCode = ex.versionCode)) ∧
    (∀ (env : R2Env) (now rid : Nat) (t : String)
        (cat : List ApkRecord) (st : Store) (ex : ApkRecord),
      cat.find? (fun r => r.id = rid) = some ex →
      t.isEmpty = false →
      putB env now rid
          { title := some t, packageName := none, description := none,
            version := none, versionCode := none,
            apkFile := none, iconFile := none } cat st =
        (HRes.ok { ex with title := t ++ " (NEW)" },
         cat.map (fun r => if r.id = rid then { ex with title := t ++ " (NEW)" } else r),
         st)) := by
  constructor
  · intro env now rid inp cat st ex hfind huniq hA hI
    refine ⟨applyUpdate
      { title := jsOr inp.title ex.title,
        packageName := jsOrO inp.packageName ex.packageName,
        description := jsOrO inp.description ex.description,
        version := jsOrO inp.version ex.version,
        versionCode := match inp.versionCode with
          | some v => some v
          | none => ex.versionCode,
        apkKey := none, apkUrl := none, iconKey := none, iconUrl := none } ex,
      ?_, by simp [applyUpdate], by simp [applyUpdate], by simp [applyUpdate],
      by simp [applyUpdate], by simp [applyUpdate], by simp [applyUpdate],
      by simp [applyUpdate], by simp [applyUpdate], by simp [applyUpdate],
      by simp [applyUpdate], ?_, ?_⟩
    · simp only [putD, hfind, hA, hI, putDIcon, putDFinish, Prod.mk.injEq]
      refine ⟨trivial, ?_, trivial⟩
      refine List.map_congr_left ?_
      intro r hr
      by_cases h : r.id = rid
      · simp only [if_pos h, huniq r hr h]
      · simp only [if_neg h]
    · intro t ht hte
      simp [applyUpdate, jsOr, ht, hte]
    · intro hvc
      simp [applyUpdate, hvc]
  · intro env now rid t cat st ex hfind hte
    simp [putB, hfind, putBStepApk, putBStepIcon, hte]

/-- Witness for the amended C3: Replace(7, {title:"New"}) on a
one-record catalog in both variants — the evolved variant stores the
title "New" with keys untouched, the in-memory one stores "New (NEW)". -/
theorem claim3_metadata_patch_is_merge_witness :
    (∃ u, putD env0 20 7 updTitleNew [rec0] st0 =
        (HRes.ok u, [rec0].map (fun r => if r.id = 7 then u else r), st0) ∧
      u.apkKey = rec0.apkKey ∧ u.apkUrl = rec0.apkUrl ∧
      u.iconKey = rec0.iconKey ∧ u.iconUrl = rec0.iconUrl ∧
      u.id = rec0.id ∧ u.createdAt = rec0.createdAt ∧
      u.title = jsOr updTitleNew.title rec0.title ∧
      u.packageName = jsOrO updTitleNew.packageName rec0.packageName ∧
      u.description = jsOrO updTitleNew.description rec0.description ∧
      u.version = jsOrO updTitleNew.version rec0.version ∧
      (∀ t, updTitleNew.title = some t → t.isEmpty = false → u.title = t) ∧
      (updTitleNew.versionCode = none → u.versionCode = rec0.versionCode)) ∧
    putB env0 20 7 updTitleNew [rec0] st0 =
      (HRes.ok { rec0 with title := "New (NEW)" },
       [rec0].map (fun r => if r.id = 7 then { rec0 with title := "New (NEW)" } else r),
       st0) :=
  ⟨claim3_metadata_patch_is_merge.1 env0 20 7 updTitleNew [rec0] st0 rec0
     (by decide) (by decide) rfl rfl,
   claim3_metadata_patch_is_merge.2 env0 20 7 "New" [rec0] st0 rec0
     (by decide) rfl⟩

/-- C4 counterexample. In the in-memory variant's DELETE handler the R2
deletes are not individually guarded: with a backend refusing deletes,
Remove(7) answers 500 and the catalog entry is NOT removed — the
blob-delete failure aborts the operation instead of being tolerated. -/
theorem claim4_delete_fail_aborts_counterexample :
    (deleteB envDeleteFailAll 7 [rec0] st0).1 =
      HRes.serverError "Ошибка удаления файлов из R2" ∧
    (deleteB envDeleteFailAll 7 [rec0] st0).2.1 = [rec0] := by
  decide

/-- C4 amended. In the evolved Mongo variant a failing delete of an old
object is tolerated: a Replace that rotates the blob still answers 200
and applies the catalog update (the unreachable old key stays behind),
and a Remove whose R2 deletes fail still answers success and removes
the catalog entry. In the in-memory variant (and the first part_000
segment) the deletes are unguarded and such a failure aborts with 500,
leaving the catalog untouched. -/
theorem claim4_delete_fail_tolerated :
    (∀ (env : R2Env) (now rid : Nat) (inp : UpdateInput)
        (cat : List ApkRecord) (st : Store) (ex : ApkRecord) (f : FileUpload),
      cat.find? (fun r => r.id = rid) = some ex →
      (∀ r ∈ cat, r.id = rid → r = ex) →
      inp.apkFile = some f → inp.iconFile = none →
      env.deleteFails ex.apkKey = true →
      env.putFails (apkKeyS now f.originalname) = false →
      ∃ u, (putD env now rid inp cat st).1 = HRes.ok u ∧
        u.apkKey = apkKeyS now f.originalname ∧
        u.id = ex.id ∧
        (putD env now rid inp cat st).2.1 =
          cat.map (fun r => if r.id = rid then u else r) ∧
        (putD env now rid inp cat st).2.2.blobs =
          apkKeyS now f.originalname :: st.blobs) ∧
    (∀ (env : R2Env) (rid : Nat) (cat : List ApkRecord) (st : Store)
        (a : ApkRecord),
      cat.find? (fun r => r.id = rid) = some a →
      env.deleteFails a.apkKey = true →
      (deleteD env rid cat st).1 = HRes.okMsg "APK deleted successfully" ∧
      (deleteD env rid cat st).2.1 = cat.eraseP (fun r => r.id == rid) ∧
      (deleteD env rid cat st).2.2.blobs = st.blobs) := by
  constructor
  · intro env now rid inp cat st ex f hfind huniq hA hI hdel hput
    refine ⟨applyUpdate
      { title := jsOr inp.title ex.title,
        packageName := jsOrO inp.packageName ex.packageName,
        description := jsOrO inp.description ex.description,
        version := jsOrO inp.version ex.version,
        versionCode := match inp.versionCode with
          | some v => some v
          | none => ex.versionCode,
        apkKey := some (apkKeyS now f.originalname),
        apkUrl := some (publicUrlOf env.publicUrl (apkKeyS now f.originalname)),
        iconKey := none, iconUrl := none } ex,
      ?_, by simp [applyUpdate], by simp [applyUpdate], ?_, ?_⟩
    · simp [putD, hfind, hA, hI, putDIcon, putDFinish, r2delete, hdel, r2put, hput]
    · simp only [putD, hfind, hA, hI, putDIcon, putDFinish]
      simp [r2delete, hdel, r2put, hput]
      intro r hr
      by_cases h : r.id = rid
      · simp only [if_pos h, huniq r hr h]
      · simp only [if_neg h]
    · simp [putD, hfind, hA, hI, putDIcon, putDFinish, r2delete, hdel, r2put, hput]
  · intro env rid cat st a hfind hdel
    refine ⟨?_, ?_, ?_⟩ <;> simp [deleteD, hfind, r2delete, hdel]

/-- Witness for the amended C4: with every delete failing, a concrete
blob-rotating Replace and a concrete Remove on the evolved variant both
still commit their catalog changes. -/
theorem claim4_delete_fail_tolerated_witness :
    (∃ u, (putD envDeleteFailAll 20 7
        { updTitleNew with apkFile := some fileApp } [rec0] st0).1 = HRes.ok u ∧
      u.apkKey = apkKeyS 20 fileApp.originalname ∧
      u.id = rec0.id ∧
      (putD envDeleteFailAll 20 7
        { updTitleNew with apkFile := some fileApp } [rec0] st0).2.1 =
        [rec0].map (fun r => if r.id = 7 then u else r) ∧
      (putD envDeleteFailAll 20 7
        { updTitleNew with apkFile := some fileApp } [rec0] st0).2.2.blobs =
        apkKeyS 20 fileApp.originalname :: st0.blobs) ∧
    ((deleteD envDeleteFailAll 7 [rec0] st0).1 = HRes.okMsg "APK deleted successfully" ∧
     (deleteD envDeleteFailAll 7 [rec0] st0).2.1 = [rec0].eraseP (fun r => r.id == 7) ∧
     (deleteD envDeleteFailAll 7 [rec0] st0).2.2.blobs = st0.blobs) :=
  ⟨claim4_delete_fail_tolerated.1 envDeleteFailAll 20 7
     { updTitleNew with apkFile := some fileApp } [rec0] st0 rec0 fileApp
     (by decide) (by decide) rfl rfl rfl rfl,
   claim4_delete_fail_tolerated.2 envDeleteFailAll 7 [rec0] st0 rec0
     (by decide) rfl⟩

/-- Inserting into the descending-by-`createdAt` sort permutes
cons. -/
theorem insertByCreatedAtDesc_perm (r : ApkRecord) (l : List ApkRecord) :
    (insertByCreatedAtDesc r l).Perm (r :: l) := by
  induction l with
  | nil => simp [insertByCreatedAtDesc]
  | cons x xs ih =>
    by_cases h : x.createdAt ≤ r.createdAt
    · simp [insertByCreatedAtDesc, h]
    · simp only [insertByCreatedAtDesc, if_neg h]
      exact (ih.cons x).trans (List.Perm.swap r x xs)

/-- Inserting into a list sorted by `createdAt` descending keeps it
sorted. -/
theorem insertByCreatedAtDesc_sorted (r : ApkRecord) (l : List ApkRecord)
    (hl : l.Sorted (fun a b => b.createdAt ≤ a.createdAt)) :
    (insertByCreatedAtDesc r l).Sorted (fun a b => b.createdAt ≤ a.createdAt) := by
  induction l with
  | nil => simp [insertByCreatedAtDesc]
  | cons x xs ih =>
    rw [List.sorted_cons] at hl
    obtain ⟨hx, hxs⟩ := hl
    by_cases h : x.createdAt ≤ r.createdAt
    · simp only [insertByCreatedAtDesc, if_pos h]
      rw [List.sorted_cons]
      refine ⟨?_, ?_⟩
      · intro b hb
        rcases List.mem_cons.mp hb with hb | hb
        · exact hb ▸ h
        · exact le_trans (hx b hb) h
      · rw [List.sorted_cons]
        exact ⟨hx, hxs⟩
    · simp only [insertByCreatedAtDesc, if_neg h]
      rw [List.sorted_cons]
      refine ⟨?_, ih hxs⟩
      intro b hb
      rcases List.mem_cons.mp ((insertByCreatedAtDesc_perm r xs).mem_iff.mp hb) with hb | hb
      · exact hb ▸ le_of_not_le h
      · exact hx b hb

/-- C7. For every catalog state, the public listing
(`Apk.find().sort({ createdAt: -1 })`) returns all artifact records —
a permutation of the catalog — ordered by `createdAt` descending
(each record's `createdAt` is at least that of every later one). -/
theorem claim7_list_sorted_desc :
    ∀ (cat : List ApkRecord),
      (listApks cat).Perm cat ∧
      (listApks cat).Sorted (fun a b => b.createdAt ≤ a.createdAt) := by
  intro cat
  constructor
  · show (sortByCreatedAtDesc cat).Perm cat
    induction cat with
    | nil => simp [sortByCreatedAtDesc]
    | cons x xs ih =>
      exact ((insertByCreatedAtDesc_perm x (sortByCreatedAtDesc xs)).trans
        (ih.cons x))
  · show (sortByCreatedAtDesc cat).Sorted (fun a b => b.createdAt ≤ a.createdAt)
    induction cat with
    | nil => simp [sortByCreatedAtDesc]
    | cons x xs ih =>
      exact insertByCreatedAtDesc_sorted x (sortByCreatedAtDesc xs) ih

/-- Splitting a character list that contains no separator yields the
single whole segment (JS `"nospace".split(" ") === ["nospace"]`). -/
theorem splitChar_of_no_sep (sep : Char) (l : List Char)
    (h : ∀ c ∈ l, ¬ c = sep) : splitChar sep l = [l] := by
  induction l with
  | nil => rfl
  | cons c cs ih =>
    have hc : ¬ c = sep := h c (List.mem_cons_self c cs)
    have ih' := ih (fun d hd => h d (List.mem_cons_of_mem c hd))
    simp only [splitChar, ih', if_neg hc]

/-- C9. The JWT auth middleware (variants A and both part_000 server
segments) never checks the authorization scheme: (1) for every header
whose second space-delimited token (`authHeader.split(" ")[1]`)
verifies as a valid JWT, the request is accepted with that token's
admin id, whatever the prefix before the space is; and (2) a header
containing no space at all yields `split(" ")[1] === undefined`, on
which `jwt.verify` throws, so the middleware answers 401 "Invalid
token" (the model is total — the throw is caught, never an unhandled
crash). -/
theorem claim9_auth_ignores_scheme :
    (∀ (verify : List Char → Option String) (h : String) (t : List Char)
        (i : String),
      authTokenOf h = some t → verify t = some i →
      authMiddlewareJwt verify (some h) = AuthResult.authorized i) ∧
    (∀ (verify : List Char → Option String) (h : String),
      (∀ c ∈ h.data, ¬ c = spaceChar) →
      authMiddlewareJwt verify (some h) = AuthResult.invalidToken) := by
  constructor
  · intro verify h t i ht hv
    simp [authMiddlewareJwt, ht, hv]
  · intro verify h hns
    have : authTokenOf h = none := by
      simp [authTokenOf, splitChar_of_no_sep spaceChar h.data hns]
    simp [authMiddlewareJwt, this]

/-- Witness for C9: a verifier accepting exactly the token "tok"
accepts the header "Basic tok" (a non-Bearer scheme) and answers 401
Invalid token for the spaceless header "Bearertok". -/
theorem claim9_auth_ignores_scheme_witness :
    authMiddlewareJwt
        (fun t => if t = "tok".data then some "admin1" else none)
        (some "Basic tok") = AuthResult.authorized "admin1" ∧
    authMiddlewareJwt
        (fun t => if t = "tok".data then some "admin1" else none)
        (some "Bearertok") = AuthResult.invalidToken :=
  ⟨claim9_auth_ignores_scheme.1
     (fun t => if t = "tok".data then some "admin1" else none)
     "Basic tok" "tok".data "admin1" (by decide) (by decide),
   claim9_auth_ignores_scheme.2
     (fun t => if t = "tok".data then some "admin1" else none)
     "Bearertok" (by decide)⟩

/-- C10. `GET /debug/admins` is registered without `authMiddleware`,
so for every request — any authorization header, or none — the
response is the same: it lists every admin credential record with the
password field projected away (`Admin.find({}, { password: 0 })`),
exposing every admin login name, and its `count` is the number of
admins. The response type `AdminPublic` has no password field, so the
stored hashes never appear. -/
theorem claim10_debug_admins_unauthenticated :
    ∀ (authHeader : Option String) (admins : List AdminRecord)
      (dbConnected : Bool),
      debugAdminsRoute authHeader admins dbConnected =
        debugAdminsRoute none admins dbConnected ∧
      (debugAdminsRoute authHeader admins dbConnected).admins =
        admins.map adminPublicOf ∧
      (debugAdminsRoute authHeader admins dbConnected).count = admins.length ∧
      (debugAdminsRoute authHeader admins dbConnected).admins.map AdminPublic.login =
        admins.map AdminRecord.login := by
  intro authHeader admins dbConnected
  refine ⟨rfl, rfl, rfl, ?_⟩
  simp [debugAdminsRoute, handleDebugAdmins, adminPublicOf, List.map_map,
    Function.comp]
